import Mathlib

/-!
Verification development for the XPlane2Blender 2.49 converter sources:
  io_xplane2blender/xplane_helpers.py
  io_xplane2blender/xplane_249_converter/xplane_249_convert.py
  io_xplane2blender/xplane_249_converter/xplane_249_material_converter.py

The Python code is shallowly embedded: pure functions become Lean functions,
Python exceptions become an `Except PyErr` result, machine integers become
Nat/Int (the relevant C fields, `mode : short` and `transp : char`, are read
as their non-negative bit patterns), and the Blender scene state touched by a
function is passed explicitly.
-/

namespace XPlane

/-- Python exceptions that the embedded code can raise. -/
inductive PyErr
  | typeError (msg : String)
  | valueError (msg : String)
  | indexError (msg : String)
  | exception (msg : String)
  | assertionError
deriving DecidableEq, Repr

/-! ## xplane_249_material_converter.py: texture-face modes -/

/-- Embeds the `_TexFaceModes` namedtuple (fields in source order). -/
structure TexFaceModes where
  TEX : Bool
  TILES : Bool
  LIGHT : Bool
  INVISIBLE : Bool
  DYNAMIC : Bool
  TWOSIDE : Bool
  SHADOW : Bool
  ALPHA : Bool
  CLIP : Bool
deriving DecidableEq, Repr

/-- Embeds the `_TexFaceModes(...)` construction inside
`_get_tf_modes_from_ctypes` (lines 235-247): each flag is
`bool(mtpoly_mode & (1 << k))` resp. `bool(mtpoly_transp & (1 << k))`. -/
def decodeTFModes (mtpoly_mode mtpoly_transp : Nat) : TexFaceModes where
  TEX := mtpoly_mode &&& (1 <<< 2) != 0
  TILES := mtpoly_mode &&& (1 <<< 7) != 0
  LIGHT := mtpoly_mode &&& (1 <<< 4) != 0
  INVISIBLE := mtpoly_mode &&& (1 <<< 10) != 0
  DYNAMIC := mtpoly_mode &&& (1 <<< 0) != 0
  TWOSIDE := mtpoly_mode &&& (1 <<< 9) != 0
  SHADOW := mtpoly_mode &&& (1 <<< 13) != 0
  ALPHA := mtpoly_transp &&& (1 <<< 1) != 0
  CLIP := mtpoly_transp &&& (1 <<< 2) != 0

lemma and_one_shl_ne_zero (n k : Nat) : (n &&& (1 <<< k) != 0) = n.testBit k := by
  rcases h : n.testBit k with _ | _ <;>
    simp [Nat.shiftLeft_eq, Nat.one_mul, Nat.and_two_pow, h, Nat.pos_iff_ne_zero,
      Nat.pos_pow_of_pos]

lemma decodeTFModes_TEX (m t : Nat) : (decodeTFModes m t).TEX = m.testBit 2 :=
  and_one_shl_ne_zero m 2

lemma decodeTFModes_TILES (m t : Nat) : (decodeTFModes m t).TILES = m.testBit 7 :=
  and_one_shl_ne_zero m 7

lemma decodeTFModes_LIGHT (m t : Nat) : (decodeTFModes m t).LIGHT = m.testBit 4 :=
  and_one_shl_ne_zero m 4

lemma decodeTFModes_INVISIBLE (m t : Nat) : (decodeTFModes m t).INVISIBLE = m.testBit 10 :=
  and_one_shl_ne_zero m 10

lemma decodeTFModes_DYNAMIC (m t : Nat) : (decodeTFModes m t).DYNAMIC = m.testBit 0 :=
  and_one_shl_ne_zero m 0

lemma decodeTFModes_TWOSIDE (m t : Nat) : (decodeTFModes m t).TWOSIDE = m.testBit 9 :=
  and_one_shl_ne_zero m 9

lemma decodeTFModes_SHADOW (m t : Nat) : (decodeTFModes m t).SHADOW = m.testBit 13 :=
  and_one_shl_ne_zero m 13

lemma decodeTFModes_ALPHA (m t : Nat) : (decodeTFModes m t).ALPHA = t.testBit 1 :=
  and_one_shl_ne_zero t 1

lemma decodeTFModes_CLIP (m t : Nat) : (decodeTFModes m t).CLIP = t.testBit 2 :=
  and_one_shl_ne_zero t 2

/-- C3: every flag of the decoded combination is the stated exact bit test on
the polygon's `mode` and `transp` fields, and no other bits influence the
result: two polygons that agree on bits 0, 2, 4, 7, 9, 10, 13 of `mode` and
bits 1, 2 of `transp` decode to the same combination. -/
theorem c3_texface_bit_decoding :
    (∀ mode transp : Nat,
      (decodeTFModes mode transp).TEX = mode.testBit 2 ∧
      (decodeTFModes mode transp).TILES = mode.testBit 7 ∧
      (decodeTFModes mode transp).LIGHT = mode.testBit 4 ∧
      (decodeTFModes mode transp).INVISIBLE = mode.testBit 10 ∧
      (decodeTFModes mode transp).DYNAMIC = mode.testBit 0 ∧
      (decodeTFModes mode transp).TWOSIDE = mode.testBit 9 ∧
      (decodeTFModes mode transp).SHADOW = mode.testBit 13 ∧
      (decodeTFModes mode transp).ALPHA = transp.testBit 1 ∧
      (decodeTFModes mode transp).CLIP = transp.testBit 2) ∧
    (∀ m t m2 t2 : Nat,
      (∀ b ∈ [0, 2, 4, 7, 9, 10, 13], m.testBit b = m2.testBit b) →
      (∀ b ∈ [1, 2], t.testBit b = t2.testBit b) →
      decodeTFModes m t = decodeTFModes m2 t2) := by
  constructor
  · intro mode transp
    exact ⟨decodeTFModes_TEX mode transp, decodeTFModes_TILES mode transp,
      decodeTFModes_LIGHT mode transp, decodeTFModes_INVISIBLE mode transp,
      decodeTFModes_DYNAMIC mode transp, decodeTFModes_TWOSIDE mode transp,
      decodeTFModes_SHADOW mode transp, decodeTFModes_ALPHA mode transp,
      decodeTFModes_CLIP mode transp⟩
  · intro m t m2 t2 hm ht
    have hm0 := hm 0 (by simp)
    have hm2 := hm 2 (by simp)
    have hm4 := hm 4 (by simp)
    have hm7 := hm 7 (by simp)
    have hm9 := hm 9 (by simp)
    have hm10 := hm 10 (by simp)
    have hm13 := hm 13 (by simp)
    have ht1 := ht 1 (by simp)
    have ht2 := ht 2 (by simp)
    simp only [decodeTFModes, TexFaceModes.mk.injEq, and_one_shl_ne_zero]
    exact ⟨hm2, hm7, hm4, hm10, hm0, hm9, hm13, ht1, ht2⟩

/-- Witness for C3: bit 15 of `mode` is not among the decoded bits, so
raising it does not change the decoded combination. -/
theorem c3_texface_bit_decoding_witness :
    decodeTFModes 4 2 = decodeTFModes (4 + 32768) 2 :=
  c3_texface_bit_decoding.2 4 2 (4 + 32768) 2 (by decide) (by decide)

/-! ## _get_tf_modes_from_ctypes: grouping polygon indices by decoded modes

The ctypes part of `_get_tf_modes_from_ctypes` reads, for each of the mesh's
`totpoly` polygons, the `mode` and `transp` fields of its `MTexPoly` struct.
The embedding takes that already-read list of `(mode, transp)` pairs as the
mesh and models the `collections.defaultdict(list)` accumulation: iterating
`idx` in order, `poly_c_info[tf_modes].append(idx)`.  Insertion order of the
dict keys (first occurrence first) is preserved by the association list. -/

/-- Embeds `poly_c_info[tf_modes].append(idx)` on a `defaultdict(list)`
represented as an insertion-ordered association list. -/
def addIdx (acc : List (TexFaceModes × List Nat)) (key : TexFaceModes) (idx : Nat) :
    List (TexFaceModes × List Nat) :=
  match acc with
  | [] => [(key, [idx])]
  | (k, l) :: rest =>
    if k = key then (k, l ++ [idx]) :: rest else (k, l) :: addIdx rest key idx

/-- The decoded texture-face combination of polygon `i` of the mesh. -/
def polyTFModes (polys : List (Nat × Nat)) (i : Nat) : TexFaceModes :=
  decodeTFModes (polys.getD i (0, 0)).1 (polys.getD i (0, 0)).2

/-- State of the `for idx, ... in enumerate(...)` loop of
`_get_tf_modes_from_ctypes` after the first `n` polygons. -/
def tfGroupsUpTo (polys : List (Nat × Nat)) : Nat → List (TexFaceModes × List Nat)
  | 0 => []
  | n + 1 => addIdx (tfGroupsUpTo polys n) (polyTFModes polys n) n

/-- Embeds `_get_tf_modes_from_ctypes` (lines 229-251): the returned
dictionary, as an insertion-ordered association list. -/
def get_tf_modes_from_ctypes (polys : List (Nat × Nat)) : List (TexFaceModes × List Nat) :=
  tfGroupsUpTo polys polys.length

lemma addIdx_map_fst (acc : List (TexFaceModes × List Nat)) (key : TexFaceModes) (idx : Nat) :
    (addIdx acc key idx).map Prod.fst =
      if key ∈ acc.map Prod.fst then acc.map Prod.fst else acc.map Prod.fst ++ [key] := by
  induction acc with
  | nil => simp [addIdx]
  | cons hd tl ih =>
    obtain ⟨k, l⟩ := hd
    by_cases h : k = key
    · subst h
      simp [addIdx]
    · have hne : ¬key = k := fun hh => h hh.symm
      rw [show addIdx ((k, l) :: tl) key idx = (k, l) :: addIdx tl key idx from by
        simp [addIdx, h]]
      simp only [List.map_cons, ih, List.mem_cons, hne, false_or]
      by_cases h2 : key ∈ tl.map Prod.fst
      · simp [h2]
      · simp [h2]

lemma addIdx_bucket (acc : List (TexFaceModes × List Nat)) (key : TexFaceModes) (idx : Nat)
    (f : TexFaceModes → List Nat)
    (hnd : (acc.map Prod.fst).Nodup)
    (hb : ∀ kv ∈ acc, kv.2 = f kv.1)
    (hempty : key ∉ acc.map Prod.fst → f key = []) :
    ∀ kv ∈ addIdx acc key idx,
      kv.2 = if kv.1 = key then f key ++ [idx] else f kv.1 := by
  induction acc with
  | nil =>
    intro kv hkv
    simp only [addIdx, List.mem_singleton] at hkv
    subst hkv
    simp [hempty (by simp)]
  | cons hd tl ih =>
    obtain ⟨k, l⟩ := hd
    simp only [List.map_cons, List.nodup_cons] at hnd
    obtain ⟨hk_notin, hnd_tl⟩ := hnd
    intro kv hkv
    by_cases h : k = key
    · rw [show addIdx ((k, l) :: tl) key idx = (k, l ++ [idx]) :: tl from by
        simp [addIdx, h]] at hkv
      rcases List.mem_cons.mp hkv with h1 | h1
      · subst h1
        have hl : l = f k := hb (k, l) (by simp)
        rw [← h]
        simp [hl]
      · have hne : kv.1 ≠ k := by
          intro he
          exact hk_notin (he ▸ List.mem_map_of_mem Prod.fst h1)
        rw [if_neg (h ▸ hne)]
        exact hb kv (List.mem_cons_of_mem _ h1)
    · rw [show addIdx ((k, l) :: tl) key idx = (k, l) :: addIdx tl key idx from by
        simp [addIdx, h]] at hkv
      rcases List.mem_cons.mp hkv with h1 | h1
      · subst h1
        rw [if_neg h]
        exact hb (k, l) (by simp)
      · refine ih hnd_tl (fun kw hkw => hb kw (List.mem_cons_of_mem _ hkw)) ?_ kv h1
        intro hnot
        refine hempty ?_
        simp only [List.map_cons, List.mem_cons]
        rintro (h2 | h2)
        · exact h h2.symm
        · exact hnot h2

lemma eq_of_mem_fst_nodup {l : List (TexFaceModes × List Nat)}
    (hnd : (l.map Prod.fst).Nodup)
    {kv kw : TexFaceModes × List Nat} (hv : kv ∈ l) (hw : kw ∈ l) (he : kv.1 = kw.1) :
    kv = kw := by
  induction l with
  | nil => cases hv
  | cons hd tl ih =>
    simp only [List.map_cons, List.nodup_cons] at hnd
    obtain ⟨hk_notin, hnd_tl⟩ := hnd
    rcases List.mem_cons.mp hv with h1 | h1 <;> rcases List.mem_cons.mp hw with h2 | h2
    · exact h1.trans h2.symm
    · exfalso
      exact hk_notin (h1 ▸ he ▸ List.mem_map_of_mem Prod.fst h2)
    · exfalso
      exact hk_notin (h2 ▸ he.symm ▸ List.mem_map_of_mem Prod.fst h1)
    · exact ih hnd_tl h1 h2

lemma tfGroupsUpTo_spec (polys : List (Nat × Nat)) (n : Nat) :
    ((tfGroupsUpTo polys n).map Prod.fst).Nodup ∧
    (∀ k, k ∈ (tfGroupsUpTo polys n).map Prod.fst ↔
      ∃ i, i < n ∧ polyTFModes polys i = k) ∧
    (∀ kv ∈ tfGroupsUpTo polys n,
      kv.2 = (List.range n).filter (fun i => decide (polyTFModes polys i = kv.1))) := by
  induction n with
  | zero => simp [tfGroupsUpTo]
  | succ n ih =>
    obtain ⟨ihnd, ihkeys, ihb⟩ := ih
    have hstep : tfGroupsUpTo polys (n + 1) =
        addIdx (tfGroupsUpTo polys n) (polyTFModes polys n) n := rfl
    have hfst := addIdx_map_fst (tfGroupsUpTo polys n) (polyTFModes polys n) n
    have hempty : polyTFModes polys n ∉ (tfGroupsUpTo polys n).map Prod.fst →
        (List.range n).filter (fun i => decide (polyTFModes polys i = polyTFModes polys n)) = [] := by
      intro hnot
      refine List.filter_eq_nil_iff.mpr ?_
      intro a ha
      simp only [decide_eq_true_eq]
      intro hdec
      exact hnot ((ihkeys (polyTFModes polys n)).mpr ⟨a, List.mem_range.mp ha, hdec⟩)
    have hbucket := addIdx_bucket (tfGroupsUpTo polys n) (polyTFModes polys n) n
      (fun k => (List.range n).filter (fun i => decide (polyTFModes polys i = k)))
      ihnd ihb hempty
    refine ⟨?_, ?_, ?_⟩
    · rw [hstep, hfst]
      by_cases h : polyTFModes polys n ∈ (tfGroupsUpTo polys n).map Prod.fst
      · simpa [h] using ihnd
      · rw [if_neg h]
        simpa [List.nodup_append, h] using ihnd
    · intro k
      rw [hstep, hfst]
      by_cases h : polyTFModes polys n ∈ (tfGroupsUpTo polys n).map Prod.fst
      · rw [if_pos h]
        rw [ihkeys k]
        constructor
        · rintro ⟨i, hi, hdec⟩
          exact ⟨i, Nat.lt_succ_of_lt hi, hdec⟩
        · rintro ⟨i, hi, hdec⟩
          rcases Nat.lt_succ_iff_lt_or_eq.mp hi with hi2 | hi2
          · exact ⟨i, hi2, hdec⟩
          · subst hi2
            subst hdec
            exact (ihkeys _).mp h
      · rw [if_neg h]
        simp only [List.mem_append, List.mem_singleton, ihkeys k]
        constructor
        · rintro (⟨i, hi, hdec⟩ | hk)
          · exact ⟨i, Nat.lt_succ_of_lt hi, hdec⟩
          · exact ⟨n, Nat.lt_succ_self n, hk.symm⟩
        · rintro ⟨i, hi, hdec⟩
          rcases Nat.lt_succ_iff_lt_or_eq.mp hi with hi2 | hi2
          · exact Or.inl ⟨i, hi2, hdec⟩
          · subst hi2
            exact Or.inr hdec.symm
    · intro kv hkv
      rw [hstep] at hkv
      have := hbucket kv hkv
      rw [List.range_succ, List.filter_append]
      by_cases h : kv.1 = polyTFModes polys n
      · rw [if_pos h] at this
        rw [this, h]
        simp
      · rw [if_neg h] at this
        rw [this]
        have : ¬(polyTFModes polys n = kv.1) := fun hh => h hh.symm
        simp [this]

/-- C2: `_get_tf_modes_from_ctypes` on a mesh whose polygons carry the given
`(mode, transp)` fields returns a dictionary whose keys are exactly the
distinct decoded combinations (without repetition), whose value list for a key
is exactly the increasing list of polygon indices decoding to that key, so the
value lists partition the indices `0..totpoly-1`: every index appears, under
the key equal to its own decoded combination, and in only one list. -/
theorem c2_tf_modes_partition (polys : List (Nat × Nat)) :
    ((get_tf_modes_from_ctypes polys).map Prod.fst).Nodup ∧
    (∀ k, k ∈ (get_tf_modes_from_ctypes polys).map Prod.fst ↔
      ∃ i, i < polys.length ∧ polyTFModes polys i = k) ∧
    (∀ kv ∈ get_tf_modes_from_ctypes polys,
      kv.2 = (List.range polys.length).filter (fun i => decide (polyTFModes polys i = kv.1))) ∧
    (∀ kv ∈ get_tf_modes_from_ctypes polys, List.Pairwise (· < ·) kv.2) ∧
    (∀ i, i < polys.length → ∃ kv, kv ∈ get_tf_modes_from_ctypes polys ∧
      kv.1 = polyTFModes polys i ∧ i ∈ kv.2) ∧
    (∀ kv kw, kv ∈ get_tf_modes_from_ctypes polys → kw ∈ get_tf_modes_from_ctypes polys →
      ∀ i, i ∈ kv.2 → i ∈ kw.2 → kv = kw) := by
  obtain ⟨hnd, hkeys, hb⟩ := tfGroupsUpTo_spec polys polys.length
  have hmem : ∀ kv ∈ get_tf_modes_from_ctypes polys, ∀ i, i ∈ kv.2 →
      i < polys.length ∧ polyTFModes polys i = kv.1 := by
    intro kv hkv i hi
    rw [hb kv hkv] at hi
    have := List.mem_filter.mp hi
    exact ⟨List.mem_range.mp this.1, of_decide_eq_true this.2⟩
  refine ⟨hnd, hkeys, hb, ?_, ?_, ?_⟩
  · intro kv hkv
    rw [hb kv hkv]
    exact List.Pairwise.filter _ (List.pairwise_lt_range polys.length)
  · intro i hi
    have hk : polyTFModes polys i ∈ (get_tf_modes_from_ctypes polys).map Prod.fst :=
      (hkeys _).mpr ⟨i, hi, rfl⟩
    obtain ⟨kv, hkv, hfst⟩ := List.mem_map.mp hk
    refine ⟨kv, hkv, hfst, ?_⟩
    rw [hb kv hkv]
    refine List.mem_filter.mpr ⟨List.mem_range.mpr hi, ?_⟩
    simp [hfst]
  · intro kv kw hkv hkw i hiv hiw
    have h1 := (hmem kv hkv i hiv).2
    have h2 := (hmem kw hkw i hiw).2
    exact eq_of_mem_fst_nodup hnd hkv hkw (h1 ▸ h2)

/-- Witness for C2: on a concrete three-polygon mesh with two distinct
combinations, polygon 0 lands in the bucket keyed by its own decoded
combination. -/
theorem c2_tf_modes_partition_witness :
    ∃ kv, kv ∈ get_tf_modes_from_ctypes [(4, 0), (0, 0), (4, 0)] ∧
      kv.1 = polyTFModes [(4, 0), (0, 0), (4, 0)] 0 ∧ 0 ∈ kv.2 :=
  (c2_tf_modes_partition [(4, 0), (0, 0), (4, 0)]).2.2.2.2.1 0 (by decide)

/-! ## _convert_material and the per-object split of convert_materials -/

/-- Modelled from the spec: `xplane_constants` is not under src; the blend
mode constant used by `_convert_material` for `BLEND_SHADOW`. -/
def BLEND_SHADOW : String := "shadow"

/-- Modelled from the spec: `xplane_constants` is not under src; the blend
mode constant used by `_convert_material` for `BLEND_OFF`. -/
def BLEND_OFF : String := "off"

/-- Embeds `_TexFaceModes.short_name` (lines 57-58): joins the first two
letters of each field name in field order, where DYNAMIC contributes when it
is NOT pressed and every other field contributes when it is pressed. -/
def TexFaceModes.short_name (tf : TexFaceModes) : String :=
  String.join
    ((if tf.TEX then ["TE"] else []) ++
     (if tf.TILES then ["TI"] else []) ++
     (if tf.LIGHT then ["LI"] else []) ++
     (if tf.INVISIBLE then ["IN"] else []) ++
     (if !tf.DYNAMIC then ["DY"] else []) ++
     (if tf.TWOSIDE then ["TW"] else []) ++
     (if tf.SHADOW then ["SH"] else []) ++
     (if tf.ALPHA then ["AL"] else []) ++
     (if tf.CLIP then ["CL"] else []))

/-- The `material.xplane` properties `_convert_material` can write.  The float
0.5 written to `blendRatio` is exactly representable, so it is modelled as the
rational 1/2. -/
structure XPlaneMatSettings where
  blend_v1000 : String
  blend_ratio : Rat
  draped : Bool
  poly_os : Nat
  draw : Bool
  solid_camera : Bool
  shadow_local : Bool
deriving DecidableEq, Repr

/-- A Blender material: a name plus its xplane property group. -/
structure Material where
  name : String
  xplane : XPlaneMatSettings
deriving DecidableEq, Repr

/-- The property lookups `_convert_material` performs through
`xplane_249_helpers.find_property_in_parents(search_obj, name)[1]` (that
helper is not under src); the environment records, per property name, whether
the lookup is truthy for the object being converted. -/
structure ConvertEnv where
  find_property_in_parents : String → Bool

/-- Embeds `_convert_material` (lines 253-339).  Returns the new material and
whether the root object's export type was set to instanced scenery.  The
`logger.info`/`logger.warn` calls and the dead `converted_something_at_all`
accumulator are pure output and are omitted; the missing `+` on line 266
(`mat.name + "_split_" tf_modes.short_name()`) is read as concatenation. -/
def _convert_material (env : ConvertEnv) (is_cockpit : Bool) (tf : TexFaceModes)
    (mat : Material) : Material × Bool :=
  let name := mat.name ++ "_split_" ++ tf.short_name
  let s0 := mat.xplane
  let r1 :=
    if tf.TEX then
      let ra :=
        if tf.ALPHA then
          let sa := if env.find_property_in_parents "ATTR_shadow_blend" then
              { s0 with blend_v1000 := BLEND_SHADOW, blend_ratio := 1/2 } else s0
          if env.find_property_in_parents "GLOBAL_shadow_blend" then
            ({ sa with blend_v1000 := BLEND_SHADOW, blend_ratio := 1/2 }, true)
          else (sa, false)
        else (s0, false)
      if tf.CLIP then
        let sc := if env.find_property_in_parents "ATTR_no_blend" then
            { ra.1 with blend_v1000 := BLEND_OFF, blend_ratio := 1/2 } else ra.1
        if env.find_property_in_parents "GLOBAL_no_blend" then
          ({ sc with blend_v1000 := BLEND_OFF, blend_ratio := 1/2 }, true)
        else (sc, ra.2)
      else ra
    else (s0, false)
  let s2 :=
    if !is_cockpit && (tf.TILES || tf.LIGHT) then
      if env.find_property_in_parents "ATTR_draped" then { r1.1 with draped := true }
      else { r1.1 with poly_os := 2 }
    else r1.1
  let s3 := if tf.INVISIBLE then { s2 with draw := false } else s2
  let s4 :=
    if !tf.INVISIBLE && !is_cockpit && !tf.DYNAMIC then { s3 with solid_camera := true }
    else s3
  let s5 := { s4 with shadow_local := !tf.SHADOW }
  ({ name := name, xplane := s5 }, r1.2)

/-- A mesh object as `convert_materials` sees it: name, per-polygon
`(mode, transp)` fields, and the single material of `material_slots[0]`. -/
structure MeshObj where
  name : String
  polys : List (Nat × Nat)
  material : Material
deriving DecidableEq, Repr

/-- The hard-coded name-suffix list of `copy_obj` (line 414). -/
def copy_name_suffixes : List String := ["SHADOW", "TILE", "INVISIBLE"]

/-- Python list indexing: raises IndexError out of range. -/
def pyListGetStr (l : List String) (i : Nat) : Except PyErr String :=
  match l.get? i with
  | some s => .ok s
  | none => .error (.indexError "list index out of range")

/-- Embeds `remove_faces` (lines 424-452): keeps exactly the faces whose
original index is in `face_ids` (bmesh delete with DEL_ONLYFACES keeps the
surviving faces in order); with a single used material slot the set difference
`slot_idxs_to_remove` is empty, so the slot-removal loop does nothing. -/
def remove_faces (face_ids : List Nat) (polys : List (Nat × Nat)) : List (Nat × Nat) :=
  (polys.enum.filter (fun p => decide (p.1 ∈ face_ids))).map Prod.snd

/-- The per-group work of the split branch (lines 407-468): the i-th group
gets a copy of the object named with the i-th hard-coded suffix (IndexError
past the third), keeps only its own face ids, and has its slot-0 material
replaced by the `_convert_material` result for its tf_modes. -/
def splitLoop (env : ConvertEnv) (is_cockpit : Bool) (obj : MeshObj) :
    Nat → List (TexFaceModes × List Nat) → Except PyErr (List MeshObj)
  | _, [] => .ok []
  | i, (tf, faceids) :: rest =>
    match pyListGetStr copy_name_suffixes i with
    | .error e => .error e
    | .ok sfx =>
      match splitLoop env is_cockpit obj (i + 1) rest with
      | .error e => .error e
      | .ok tail =>
        .ok ({ name := obj.name ++ sfx,
               polys := remove_faces faceids obj.polys,
               material := (_convert_material env is_cockpit tf obj.material).1 } :: tail)

/-- Embeds the per-object body of `convert_materials` (lines 396-481): the
object is split only when it has more than two texture-face groups
(`len(all_tf_modes) > 2`); otherwise `new_objs = [search_obj]` and nothing is
copied or converted. -/
def convert_mesh_object (env : ConvertEnv) (is_cockpit : Bool) (obj : MeshObj) :
    Except PyErr (List MeshObj) :=
  let all_tf_modes := get_tf_modes_from_ctypes obj.polys
  if all_tf_modes.length > 2 then splitLoop env is_cockpit obj 0 all_tf_modes
  else .ok [obj]

/-- Environment and objects for evaluating `convert_mesh_object`. -/
def demoEnv : ConvertEnv := ⟨fun _ => false⟩

/-- A plain 2.49 material. -/
def demoMat : Material := ⟨"Material", ⟨"on", 1, false, 0, true, false, true⟩⟩

/-- A mesh whose two polygons carry two distinct texture-face combinations. -/
def demoObj2 : MeshObj := ⟨"Cube", [(4, 0), (0, 0)], demoMat⟩

/-- A mesh with three distinct texture-face combinations. -/
def demoObj3 : MeshObj := ⟨"Cube", [(4, 0), (0, 0), (16, 0)], demoMat⟩

/-- A mesh with four distinct texture-face combinations. -/
def demoObj4 : MeshObj := ⟨"Cube", [(4, 0), (0, 0), (16, 0), (128, 0)], demoMat⟩

/-- C1 fails on the code: a mesh whose polygons carry exactly two distinct
texture-face combinations (more than one, as the claim reads) is NOT split:
the split branch requires more than two groups, so the object is returned
unchanged and no material is converted.  With three groups the split does
produce one object per combination, keeping exactly its group's polygon
indices and assigning the group's converted material; with four or more
groups the hard-coded suffix list raises IndexError. -/
theorem c1_convert_materials_split_eval :
    (get_tf_modes_from_ctypes demoObj2.polys).length = 2 ∧
    polyTFModes demoObj2.polys 0 ≠ polyTFModes demoObj2.polys 1 ∧
    convert_mesh_object demoEnv false demoObj2 = .ok [demoObj2] ∧
    convert_mesh_object demoEnv false demoObj3 =
      .ok [⟨"CubeSHADOW", [(4, 0)],
              (_convert_material demoEnv false (decodeTFModes 4 0) demoMat).1⟩,
           ⟨"CubeTILE", [(0, 0)],
              (_convert_material demoEnv false (decodeTFModes 0 0) demoMat).1⟩,
           ⟨"CubeINVISIBLE", [(16, 0)],
              (_convert_material demoEnv false (decodeTFModes 16 0) demoMat).1⟩] ∧
    convert_mesh_object demoEnv false demoObj4 =
      .error (.indexError "list index out of range") := by
  exact ⟨rfl, by decide, rfl, rfl, rfl⟩

/-! ## Workflow type: conversion scope (convert_materials lines 341-347,
do_249_conversion lines 60-67) -/

/-- Embeds `xplane_249_constants.WorkflowType`.  Modelled from the spec for
the member list: the constants module is not under src, and the spec names the
operating modes regular / bulk / skip. -/
inductive WorkflowType
  | REGULAR
  | BULK
  | SKIP
deriving DecidableEq, Repr

/-- A scene object, with its recursive children. -/
inductive ObjTree
  | node (name : String) (children : List ObjTree)

mutual

/-- Modelled from the spec: `xplane_249_helpers.get_all_children_recursive`
is not under src; per the spec's bulk workflow, it returns the root object's
recursive children. -/
def get_all_children_recursive : ObjTree → List ObjTree
  | .node _ cs => childrenOfList cs

/-- Recursive children of every tree in the list, each preceded by itself. -/
def childrenOfList : List ObjTree → List ObjTree
  | [] => []
  | c :: rest => c :: get_all_children_recursive c ++ childrenOfList rest

end

/-- Embeds convert_materials lines 341-347: the set of objects searched is
`scene.objects` for REGULAR, `[root_object] + get_all_children_recursive(...)`
for BULK, and `assert False, "Unknown workflow type"` otherwise. -/
def search_objs_for (workflow_type : WorkflowType) (scene_objects : List ObjTree)
    (root_object : ObjTree) : Except PyErr (List ObjTree) :=
  match workflow_type with
  | .REGULAR => .ok scene_objects
  | .BULK => .ok (root_object :: get_all_children_recursive root_object)
  | .SKIP => .error .assertionError

/-- Embeds do_249_conversion lines 60-67: whether the layer-properties
conversion (`do_convert_layer_properties`) runs for the workflow type (the
final `assert False` arm is unreachable over the three members). -/
def runs_layer_props_conversion : WorkflowType → Bool
  | .SKIP => false
  | .REGULAR => true
  | .BULK => true

/-- C7: REGULAR searches every object of the scene, BULK searches exactly the
root object and its recursive children, any other workflow type fails the
assertion in convert_materials, and the layer-property conversion step of
do_249_conversion runs for REGULAR and BULK but not for SKIP. -/
theorem c7_workflow_scope :
    (∀ scene_objects root_object,
      search_objs_for .REGULAR scene_objects root_object = .ok scene_objects) ∧
    (∀ scene_objects root_object,
      search_objs_for .BULK scene_objects root_object =
        .ok (root_object :: get_all_children_recursive root_object)) ∧
    (∀ wt scene_objects root_object, wt ≠ .REGULAR → wt ≠ .BULK →
      search_objs_for wt scene_objects root_object = .error .assertionError) ∧
    runs_layer_props_conversion .SKIP = false ∧
    (∀ wt, wt = .REGULAR ∨ wt = .BULK → runs_layer_props_conversion wt = true) := by
  refine ⟨fun _ _ => rfl, fun _ _ => rfl, ?_, rfl, ?_⟩
  · intro wt scene_objects root_object h1 h2
    cases wt with
    | REGULAR => exact absurd rfl h1
    | BULK => exact absurd rfl h2
    | SKIP => rfl
  · rintro wt (h | h) <;> subst h <;> rfl

/-- Witness for C7: under SKIP the object search fails the assertion, and the
layer-property conversion does run under BULK. -/
theorem c7_workflow_scope_witness :
    search_objs_for .SKIP [] (.node "root" []) = .error .assertionError ∧
    runs_layer_props_conversion .BULK = true :=
  ⟨c7_workflow_scope.2.2.1 .SKIP [] (.node "root" []) (by decide) (by decide),
   c7_workflow_scope.2.2.2.2 .BULK (Or.inr rfl)⟩

/-! ## do_249_conversion run-once guard (xplane_249_convert.py lines 24-36) -/

/-- The module state `do_249_conversion` touches: the module-level `_runs`
counter and `_converted_objects` set, plus the Blender data (`world`: every
scene and object) the conversion body mutates. -/
structure ConvState (α : Type) where
  runs : Nat
  converted_objects : List String
  world : α
deriving DecidableEq, Repr

/-- Embeds `do_249_conversion`: when `_runs > 0` it returns immediately;
otherwise `_runs` is incremented and the whole conversion body (abstracted as
`body`, which may mutate `_converted_objects` and any scene data) runs. -/
def do_249_conversion (body : List String × α → List String × α) (s : ConvState α) :
    ConvState α :=
  if s.runs > 0 then s
  else
    let w := body (s.converted_objects, s.world)
    { runs := s.runs + 1, converted_objects := w.1, world := w.2 }

/-- C8: after any first invocation the `_runs` counter is positive, and every
invocation with a positive counter returns immediately, leaving every scene,
every object and the converted-objects set unchanged. -/
theorem c8_run_once_guard {α : Type} (body : List String × α → List String × α)
    (s : ConvState α) :
    0 < (do_249_conversion body s).runs ∧
    (0 < s.runs → do_249_conversion body s = s) := by
  constructor
  · by_cases h : s.runs > 0
    · simp [do_249_conversion, h]
    · simp [do_249_conversion, h]
  · intro h
    simp [do_249_conversion, h]

/-- Witness for C8: a state that has already run once is returned unchanged,
scenes, objects and converted set included. -/
theorem c8_run_once_guard_witness :
    do_249_conversion (fun w => ([], w.2 + 1)) (⟨1, ["Armature"], 7⟩ : ConvState Nat) =
      ⟨1, ["Armature"], 7⟩ :=
  (c8_run_once_guard (fun w => ([], w.2 + 1)) ⟨1, ["Armature"], 7⟩).2 (by decide)

/-! ## xplane_helpers.py: XPlaneLogger -/

/-- A buffered log record: the dict
`\x7b'type': ..., 'message': ..., 'context': ...\x7d` appended by `log`. -/
structure LogMessage where
  type : String
  message : String
  context : Option String
deriving DecidableEq, Repr

/-- A registered transport: the dict `\x7b'fn': ..., 'types': ...\x7d` stored
by `addTransport`; the callable is identified opaquely by `fn`. -/
structure Transport where
  fn : Nat
  types : List String
deriving DecidableEq, Repr

/-- The `XPlaneLogger` state: its `transports` and `messages` lists. -/
structure XPlaneLogger where
  transports : List Transport
  messages : List LogMessage
deriving DecidableEq, Repr

/-- The default `messageTypes` argument of `addTransport` (line 295). -/
def defaultMessageTypes : List String := ["error", "warning", "info", "success"]

/-- Embeds `XPlaneLogger.addTransport` (lines 295-299). -/
def addTransport (l : XPlaneLogger) (fn : Nat) (messageTypes : List String) : XPlaneLogger :=
  { l with transports := l.transports ++ [⟨fn, messageTypes⟩] }

/-- Embeds the transport loop of `log` (lines 325-327): the invocations
`transport['fn'](messageType, message, context)` made, in registration
order, for the transports whose `types` contain the message type. -/
def dispatchCalls (messageType message : String) (context : Option String) :
    List Transport → List (Nat × String × String × Option String)
  | [] => []
  | tr :: rest =>
    if messageType ∈ tr.types then
      (tr.fn, messageType, message, context) :: dispatchCalls messageType message context rest
    else dispatchCalls messageType message context rest

/-- Embeds `XPlaneLogger.log` (lines 318-327): appends the record, then
invokes matching transports; the second component is the invocation list. -/
def XPlaneLogger.log (l : XPlaneLogger) (messageType message : String)
    (context : Option String) :
    XPlaneLogger × List (Nat × String × String × Option String) :=
  ({ l with messages := l.messages ++ [⟨messageType, message, context⟩] },
   dispatchCalls messageType message context l.transports)

lemma dispatchCalls_eq_filter_map (t m : String) (c : Option String) (ts : List Transport) :
    dispatchCalls t m c ts =
      (ts.filter (fun tr => decide (t ∈ tr.types))).map (fun tr => (tr.fn, t, m, c)) := by
  induction ts with
  | nil => rfl
  | cons hd tl ih =>
    by_cases h : t ∈ hd.types <;> simp [dispatchCalls, h, ih]

/-- C4: `log(t, m, c)` appends exactly one record `(t, m, c)` at the end of
the messages buffer, leaves the transports unchanged, invokes exactly the
registered transports whose type list contains `t`, in registration order,
passing `(t, m, c)` to each; and a transport registered with the default
type list is additionally invoked exactly when `t` is error, warning, info
or success. -/
theorem c4_logger_log (l : XPlaneLogger) (t m : String) (c : Option String) :
    (l.log t m c).1.messages = l.messages ++ [⟨t, m, c⟩] ∧
    (l.log t m c).1.transports = l.transports ∧
    (l.log t m c).2 =
      (l.transports.filter (fun tr => decide (t ∈ tr.types))).map
        (fun tr => (tr.fn, t, m, c)) ∧
    (∀ fn, ((addTransport l fn defaultMessageTypes).log t m c).2 =
      (l.log t m c).2 ++
        (if t = "error" ∨ t = "warning" ∨ t = "info" ∨ t = "success"
         then [(fn, t, m, c)] else [])) := by
  refine ⟨rfl, rfl, dispatchCalls_eq_filter_map t m c l.transports, ?_⟩
  intro fn
  show dispatchCalls t m c (l.transports ++ [⟨fn, defaultMessageTypes⟩]) =
    dispatchCalls t m c l.transports ++ _
  rw [dispatchCalls_eq_filter_map, dispatchCalls_eq_filter_map, List.filter_append,
    List.map_append]
  congr 1
  by_cases h : t = "error" ∨ t = "warning" ∨ t = "info" ∨ t = "success" <;>
    simp [defaultMessageTypes, h]

/-- Embeds the loop body of `findOfType` (lines 341-348). -/
def findOfTypeLoop (messageType : String) : List LogMessage → List LogMessage
  | [] => []
  | msg :: rest =>
    if msg.type = messageType then msg :: findOfTypeLoop messageType rest
    else findOfTypeLoop messageType rest

/-- Embeds `XPlaneLogger.findOfType`. -/
def XPlaneLogger.findOfType (l : XPlaneLogger) (messageType : String) : List LogMessage :=
  findOfTypeLoop messageType l.messages

/-- Embeds the loop of `hasOfType` (lines 350-355), with its early return. -/
def hasOfTypeLoop (messageType : String) : List LogMessage → Bool
  | [] => false
  | msg :: rest => if msg.type = messageType then true else hasOfTypeLoop messageType rest

/-- Embeds `XPlaneLogger.hasOfType`. -/
def XPlaneLogger.hasOfType (l : XPlaneLogger) (messageType : String) : Bool :=
  hasOfTypeLoop messageType l.messages

/-- Embeds `XPlaneLogger.findErrors` (line 357). -/
def XPlaneLogger.findErrors (l : XPlaneLogger) : List LogMessage := l.findOfType "error"

/-- Embeds `XPlaneLogger.hasErrors` (line 360). -/
def XPlaneLogger.hasErrors (l : XPlaneLogger) : Bool := l.hasOfType "error"

/-- Embeds `XPlaneLogger.findWarnings` (line 363). -/
def XPlaneLogger.findWarnings (l : XPlaneLogger) : List LogMessage := l.findOfType "warning"

/-- Embeds `XPlaneLogger.hasWarnings` (line 366). -/
def XPlaneLogger.hasWarnings (l : XPlaneLogger) : Bool := l.hasOfType "warning"

lemma findOfTypeLoop_eq_filter (t : String) (ms : List LogMessage) :
    findOfTypeLoop t ms = ms.filter (fun msg => decide (msg.type = t)) := by
  induction ms with
  | nil => rfl
  | cons hd tl ih =>
    by_cases h : hd.type = t <;> simp [findOfTypeLoop, h, ih]

lemma hasOfTypeLoop_eq_isEmpty (t : String) (ms : List LogMessage) :
    hasOfTypeLoop t ms = !(findOfTypeLoop t ms).isEmpty := by
  induction ms with
  | nil => rfl
  | cons hd tl ih =>
    by_cases h : hd.type = t <;> simp [hasOfTypeLoop, findOfTypeLoop, h, ih]

/-- C9: `hasOfType(t)` is true exactly when `findOfType(t)` is non-empty,
`findOfType(t)` returns exactly the buffered messages of type `t` in logging
order, and the error/warning variants are those operations at
`t = "error"` and `t = "warning"`. -/
theorem c9_find_has_of_type (l : XPlaneLogger) (t : String) :
    l.findOfType t = l.messages.filter (fun msg => decide (msg.type = t)) ∧
    l.hasOfType t = !(l.findOfType t).isEmpty ∧
    l.findErrors = l.findOfType "error" ∧
    l.hasErrors = l.hasOfType "error" ∧
    l.findWarnings = l.findOfType "warning" ∧
    l.hasWarnings = l.hasOfType "warning" :=
  ⟨findOfTypeLoop_eq_filter t l.messages, hasOfTypeLoop_eq_isEmpty t l.messages,
   rfl, rfl, rfl, rfl⟩

/-! ## xplane_helpers.py: firstMatchInList (lines 30-37) -/

/-- The two possible results of `firstMatchInList`: a matching item, or the
Python literal `False` (not `None`). -/
inductive FirstMatchResult
  | found (item : String)
  | noMatchFalse
deriving DecidableEq, Repr

/-- Embeds `firstMatchInList`: walks the items in index order and returns the
first one the compiled pattern fully matches; `fullmatch` models the
truthiness of `pattern.fullmatch(item)`. -/
def firstMatchInList (fullmatch : String → Bool) : List String → FirstMatchResult
  | [] => .noMatchFalse
  | item :: rest =>
    if fullmatch item then .found item else firstMatchInList fullmatch rest

/-- C10: `firstMatchInList` returns the boolean `False` exactly when no item
fully matches, and returns `found s` exactly when `s` is the earliest item in
list order that fully matches. -/
theorem c10_first_match (p : String → Bool) (items : List String) :
    (firstMatchInList p items = .noMatchFalse ↔ ∀ x ∈ items, p x = false) ∧
    (∀ s, firstMatchInList p items = .found s ↔
      ∃ pre post, items = pre ++ s :: post ∧ p s = true ∧ ∀ x ∈ pre, p x = false) := by
  induction items with
  | nil =>
    constructor
    · simp [firstMatchInList]
    · intro s
      constructor
      · intro habs
        simp [firstMatchInList] at habs
      · rintro ⟨pre, post, habs, -, -⟩
        exact absurd habs (by simp)
  | cons x rest ih =>
    by_cases h : p x = true
    · constructor
      · constructor
        · intro habs
          rw [show firstMatchInList p (x :: rest) = .found x from by
            simp [firstMatchInList, h]] at habs
          cases habs
        · intro hall
          exact absurd (hall x (by simp)) (by simp [h])
      · intro s
        rw [show firstMatchInList p (x :: rest) = .found x from by
          simp [firstMatchInList, h]]
        constructor
        · intro he
          injection he with he
          subst he
          exact ⟨[], rest, rfl, h, by simp⟩
        · rintro ⟨pre, post, hdec, hps, hpre⟩
          cases pre with
          | nil =>
            simp only [List.nil_append, List.cons.injEq] at hdec
            exact congrArg FirstMatchResult.found hdec.1
          | cons y pre2 =>
            simp only [List.cons_append, List.cons.injEq] at hdec
            exact absurd (hdec.1 ▸ hpre y (by simp)) (by simp [h])
    · have hfx : p x = false := by simpa using h
      have hstep : firstMatchInList p (x :: rest) = firstMatchInList p rest := by
        simp [firstMatchInList, hfx]
      constructor
      · rw [hstep, ih.1]
        constructor
        · intro hall y hy
          rcases List.mem_cons.mp hy with h1 | h1
          · exact h1 ▸ hfx
          · exact hall y h1
        · intro hall y hy
          exact hall y (List.mem_cons_of_mem _ hy)
      · intro s
        rw [hstep, ih.2 s]
        constructor
        · rintro ⟨pre, post, hdec, hps, hpre⟩
          refine ⟨x :: pre, post, by simp [hdec], hps, ?_⟩
          intro y hy
          rcases List.mem_cons.mp hy with h1 | h1
          · exact h1 ▸ hfx
          · exact hpre y h1
        · rintro ⟨pre, post, hdec, hps, hpre⟩
          cases pre with
          | nil =>
            simp only [List.nil_append, List.cons.injEq] at hdec
            exact absurd (hdec.1 ▸ hps) (by simp [hfx])
          | cons y pre2 =>
            simp only [List.cons_append, List.cons.injEq] at hdec
            exact ⟨pre2, post, hdec.2, hps, fun z hz => hpre z (List.mem_cons_of_mem _ hz)⟩

/-- Witness for C10: on a concrete pattern and list, the earliest full match
is returned. -/
theorem c10_first_match_witness :
    firstMatchInList (fun s => s == "b") ["a", "b", "c"] = .found "b" :=
  ((c10_first_match (fun s => s == "b") ["a", "b", "c"]).2 "b").mpr
    ⟨["a"], ["c"], rfl, by decide, by decide⟩

/-! ## xplane_helpers.py: VerStruct

`parse_version` stores into `addon_version` either a tuple of Python ints
(old format) or a tuple of the digit strings captured by the regex (modern
format).  `PVal` models that dynamically-typed tuple element; comparing a
`pstr` against an int raises TypeError exactly as Python does. -/

/-- A dynamically-typed value stored in `addon_version`. -/
inductive PVal
  | pint (n : Int)
  | pstr (s : String)
deriving DecidableEq, Repr

/-- Modelled from the spec: the constants module `xplane_constants` is not
under src.  The build-type value for dev builds, used by
`VerStruct.__init__` and `is_valid`. -/
def BUILD_TYPE_DEV : String := "dev"

/-- Modelled from the spec: the legacy build type assigned by
`parse_version` for the old version formats, named to match the regex
alternation `(alpha|beta|dev|leg|rc)`. -/
def BUILD_TYPE_LEGACY : String := "leg"

/-- Modelled from the spec: the full build-type list, members taken from the
`parse_version` regex alternation, in the project's ascending order of
release maturity (legacy, dev, alpha, beta, rc) used by `cmp`'s
`BUILD_TYPES.index` comparisons. -/
def BUILD_TYPES : List String := ["leg", "dev", "alpha", "beta", "rc"]

/-- Modelled from the spec: the sentinel for a missing build number. -/
def BUILD_NUMBER_NONE : String := "none"

/-- Embeds the `VerStruct` data transport struct (lines 63-69). -/
structure VerStruct where
  addon_version : List PVal
  build_type : String
  build_type_version : Int
  data_model_version : Int
  build_number : String
deriving DecidableEq, Repr

/-- The `VerStruct.__init__` defaults (lines 64-69). -/
def defaultVerStruct : VerStruct :=
  ⟨[.pint 0, .pint 0, .pint 0], BUILD_TYPE_DEV, 0, 0, BUILD_NUMBER_NONE⟩

/-- Python `x >= k` for a tuple element `x` and an int `k`: comparing a str
against an int raises TypeError. -/
def PVal.geInt : PVal → Int → Except PyErr Bool
  | .pint n, k => .ok (decide (k ≤ n))
  | .pstr _, _ => .error (.typeError "not supported between instances of str and int")

/-- Python `list.index`: position of the first occurrence, ValueError when
the element is absent (so it never returns -1). -/
def pyListIndex : List String → String → Except PyErr Int
  | [], _ => .error (.valueError "is not in list")
  | a :: rest, x =>
    if a = x then .ok 0
    else
      match pyListIndex rest x with
      | .error e => .error e
      | .ok i => .ok (i + 1)

/-- Value of a list of decimal digit characters. -/
def digitsToNat (cs : List Char) : Nat :=
  cs.foldl (fun acc c => acc * 10 + (c.toNat - 48)) 0

/-- Gregorian leap year, as `datetime.datetime` validates dates. -/
def leapYear (y : Int) : Bool :=
  y % 4 == 0 && (y % 100 != 0 || y % 400 == 0)

/-- Days in a month, as `datetime.datetime` validates dates. -/
def daysInMonth (y m : Int) : Int :=
  if m = 2 then (if leapYear y then 29 else 28)
  else if m = 4 ∨ m = 6 ∨ m = 9 ∨ m = 11 then 30
  else 31

/-- The range checks `datetime.datetime(y, mo, d, h, mi, s, tzinfo=utc)`
performs on construction; it raises ValueError outside these ranges, which
`is_valid` catches and turns into False. -/
def validDatetime (y mo d h mi s : Int) : Bool :=
  decide (1 ≤ y) && decide (y ≤ 9999) && decide (1 ≤ mo) && decide (mo ≤ 12) &&
  decide (1 ≤ d) && decide (d ≤ daysInMonth y mo) &&
  decide (0 ≤ h) && decide (h ≤ 23) && decide (0 ≤ mi) && decide (mi ≤ 59) &&
  decide (0 ≤ s) && decide (s ≤ 59)

/-- Embeds `re.match` of `(\d\x7b4\x7d)(\d\x7b2\x7d)...` on the build number
(line 128): the first 14 characters must be digits (anything after them is
ignored by `re.match`); on no match, `datetime_matches.groups()` raises
AttributeError, which the surrounding `except` turns into False, modelled by
`none` here. -/
def build_number_groups (s : String) : Option (Int × Int × Int × Int × Int × Int) :=
  let cs := s.toList
  if 14 ≤ cs.length ∧ (cs.take 14).all Char.isDigit then
    some ((digitsToNat (cs.take 4) : Int),
          (digitsToNat ((cs.drop 4).take 2) : Int),
          (digitsToNat ((cs.drop 6).take 2) : Int),
          (digitsToNat ((cs.drop 8).take 2) : Int),
          (digitsToNat ((cs.drop 10).take 2) : Int),
          (digitsToNat ((cs.drop 12).take 2) : Int))
  else none

/-- The tail of `is_valid` (lines 120-137): legacy/data-model consistency and
build-number validation. -/
def is_valid_rest (v : VerStruct) : Except PyErr (Option Bool) :=
  if v.build_type = BUILD_TYPE_LEGACY ∧ v.data_model_version ≠ 0 then .ok (some false)
  else if v.build_type ≠ BUILD_TYPE_LEGACY ∧ v.data_model_version ≤ 0 then .ok (some false)
  else if v.build_number = BUILD_NUMBER_NONE then .ok (some true)
  else
    match build_number_groups v.build_number with
    | none => .ok (some false)
    | some (y, mo, d, h, mi, s) => .ok (some (validDatetime y mo d h mi s))

/-- Embeds `VerStruct.is_valid` (lines 93-137).  The `isinstance` checks of
`types_correct` hold by construction except the tuple-length test, which is
real: a wrong length raises the Exception on line 101.  The function returns
`True`/`False`, or falls off the end returning Python `None` (modelled as
`none`) when `addon_version` is below (3, 0, 0). -/
def VerStruct.is_valid (v : VerStruct) : Except PyErr (Option Bool) :=
  if v.addon_version.length ≠ 3 then
    .error (.exception "Incorrect types passed into VerStruct")
  else
    match (v.addon_version.getD 0 (.pint 0)).geInt 3 with
    | .error e => .error e
    | .ok false => .ok none
    | .ok true =>
      match (v.addon_version.getD 1 (.pint 0)).geInt 0 with
      | .error e => .error e
      | .ok false => .ok none
      | .ok true =>
        match (v.addon_version.getD 2 (.pint 0)).geInt 0 with
        | .error e => .error e
        | .ok false => .ok none
        | .ok true =>
          match pyListIndex BUILD_TYPES v.build_type with
          | .error e => .error e
          | .ok _ =>
            if v.build_type = BUILD_TYPE_DEV ∨ v.build_type = BUILD_TYPE_LEGACY then
              if 0 < v.build_type_version ∨ v.build_number ≠ BUILD_NUMBER_NONE then
                .ok (some false)
              else is_valid_rest v
            else
              if v.build_type_version ≤ 0 then .ok (some false)
              else is_valid_rest v

/-- Python `str.split` on a separator character: every occurrence splits,
empty pieces included. -/
def splitDotsAux (cur : List Char) : List Char → List (List Char)
  | [] => [cur.reverse]
  | c :: rest =>
    if c = '.' then cur.reverse :: splitDotsAux [] rest
    else splitDotsAux (c :: cur) rest

/-- `version_str.split(".")` over the character list. -/
def splitDots (cs : List Char) : List (List Char) := splitDotsAux [] cs

/-- Python `int(s)`: optional surrounding whitespace, optional sign, then a
non-empty digit run; anything else raises ValueError.  (Digit-group
underscores are not used by any caller and are not modelled.) -/
def pyInt (s : String) : Except PyErr Int :=
  let stripped := s.toList.dropWhile (fun c => c = ' ' || c = '\t')
  let stripped := (stripped.reverse.dropWhile (fun c => c = ' ' || c = '\t')).reverse
  match stripped with
  | '-' :: ds =>
    if ds ≠ [] ∧ ds.all Char.isDigit then .ok (-(digitsToNat ds : Int))
    else .error (.valueError "invalid literal for int with base 10")
  | '+' :: ds =>
    if ds ≠ [] ∧ ds.all Char.isDigit then .ok ((digitsToNat ds : Int))
    else .error (.valueError "invalid literal for int with base 10")
  | ds =>
    if ds ≠ [] ∧ ds.all Char.isDigit then .ok ((digitsToNat ds : Int))
    else .error (.valueError "invalid literal for int with base 10")

/-- `[int(v) for v in version_str.split(".")]`, propagating the first
ValueError. -/
def pyIntList : List String → Except PyErr (List Int)
  | [] => .ok []
  | s :: rest =>
    match pyInt s with
    | .error e => .error e
    | .ok n =>
      match pyIntList rest with
      | .error e => .error e
      | .ok ns => .ok (n :: ns)

/-- Matches `\d+\.\d+\.\d+` at the front: three non-empty digit runs joined
by literal dots (greedy digit runs are unambiguous against the separators).
Returns group 1 and the remaining characters. -/
def matchDotted (cs : List Char) : Option (String × List Char) :=
  let d1 := cs.takeWhile Char.isDigit
  let r1 := cs.dropWhile Char.isDigit
  if d1 = [] then none
  else
    match r1 with
    | '.' :: r2 =>
      let d2 := r2.takeWhile Char.isDigit
      let r3 := r2.dropWhile Char.isDigit
      if d2 = [] then none
      else
        match r3 with
        | '.' :: r4 =>
          let d3 := r4.takeWhile Char.isDigit
          let r5 := r4.dropWhile Char.isDigit
          if d3 = [] then none
          else some (String.mk (d1 ++ '.' :: d2 ++ '.' :: d3), r5)
        | _ => none
    | _ => none

/-- Matches the alternation `(alpha|beta|dev|leg|rc)` at the front; the five
alternatives start with distinct letters, so the regex choice is
deterministic. -/
def matchBuildType (cs : List Char) : Option (String × List Char) :=
  if cs.take 5 = "alpha".toList then some ("alpha", cs.drop 5)
  else if cs.take 4 = "beta".toList then some ("beta", cs.drop 4)
  else if cs.take 3 = "dev".toList then some ("dev", cs.drop 3)
  else if cs.take 3 = "leg".toList then some ("leg", cs.drop 3)
  else if cs.take 2 = "rc".toList then some ("rc", cs.drop 2)
  else none

/-- A `[1-9]` character. -/
def isNonzeroDigit (c : Char) : Bool := 49 ≤ c.toNat && c.toNat ≤ 57

/-- Embeds `re.match(format_str, version_str)` of `parse_version` (lines
216-221): `(\d+\.\d+\.\d+)-(alpha|beta|dev|leg|rc)\.([1-9]+)` and, when the
input contains a `+`, also `\+(\d+)\.(\d\x7b14\x7d)`.  `re.match` anchors
only at the start; trailing characters are ignored.  Returns groups 1-5
(groups 4 and 5 empty in the no-plus form). -/
def match_modern (has_plus : Bool) (cs : List Char) :
    Option (String × String × String × String × String) :=
  match matchDotted cs with
  | none => none
  | some (g1, r1) =>
    match r1 with
    | '-' :: r2 =>
      match matchBuildType r2 with
      | none => none
      | some (g2, r3) =>
        match r3 with
        | '.' :: r4 =>
          let g3 := r4.takeWhile isNonzeroDigit
          let r5 := r4.dropWhile isNonzeroDigit
          if g3 = [] then none
          else if has_plus then
            match r5 with
            | '+' :: r6 =>
              let g4 := r6.takeWhile Char.isDigit
              let r7 := r6.dropWhile Char.isDigit
              if g4 = [] then none
              else
                match r7 with
                | '.' :: r8 =>
                  if 14 ≤ r8.length ∧ (r8.take 14).all Char.isDigit then
                    some (g1, g2, String.mk g3, String.mk g4, String.mk (r8.take 14))
                  else none
                | _ => none
            | _ => none
          else some (g1, g2, String.mk g3, "", "")
        | _ => none
    | _ => none

/-- Embeds `VerStruct.parse_version` (lines 208-245).  The modern branch
stores `version_matches.group(1).split(".")` — a tuple of digit STRINGS — into
`addon_version`; the old-format branch stores ints and may raise ValueError
from `int()`.  Finally `is_valid` decides the result (its exceptions
propagate, and both a False and a None result give Python `None`).
`int(group(3))`/`int(group(4))` always succeed on the captured digit runs and
are taken directly as numbers. -/
def VerStruct.parse_version (version_str : String) : Except PyErr (Option VerStruct) :=
  let built : Except PyErr VerStruct :=
    if version_str.toList.contains '-' then
      match match_modern (version_str.toList.contains '+') version_str.toList with
      | some (g1, g2, g3, g4, g5) =>
        let v1 : VerStruct :=
          { defaultVerStruct with
            addon_version := (splitDots g1.toList).map (fun cs => PVal.pstr (String.mk cs)),
            build_type := g2,
            build_type_version := (digitsToNat g3.toList : Int) }
        if version_str.toList.contains '+' then
          .ok { v1 with
                data_model_version := (digitsToNat g4.toList : Int),
                build_number := g5 }
        else .ok v1
      | none => .ok defaultVerStruct
    else
      match pyIntList ((splitDots version_str.toList).map String.mk) with
      | .error e => .error e
      | .ok ns =>
        .ok { defaultVerStruct with
              addon_version := ns.map PVal.pint,
              build_type := BUILD_TYPE_LEGACY }
  match built with
  | .error e => .error e
  | .ok v =>
    match v.is_valid with
    | .error e => .error e
    | .ok (some true) => .ok (some v)
    | .ok _ => .ok none

/-- C5 fails on the code: `parse_version` raises for documented inputs.  On
the documented old format "3.2" the two-element tuple fails the length check
in `is_valid`, which raises its Exception; on the documented modern format
the regex stores digit strings into `addon_version`, so `is_valid` raises
TypeError comparing str with int.  The other documented old formats do
return a valid VerStruct. -/
theorem c5_parse_version_eval :
    VerStruct.parse_version "3.2" =
      .error (.exception "Incorrect types passed into VerStruct") ∧
    VerStruct.parse_version "3.4.0-beta.5+1.20170906154330" =
      .error (.typeError "not supported between instances of str and int") ∧
    VerStruct.parse_version "3.2.0" =
      .ok (some ⟨[.pint 3, .pint 2, .pint 0], "leg", 0, 0, "none"⟩) ∧
    VerStruct.parse_version "3.3.13" =
      .ok (some ⟨[.pint 3, .pint 3, .pint 13], "leg", 0, 0, "none"⟩) := by
  exact ⟨rfl, rfl, rfl, rfl⟩

/-! ## VerStruct.cmp (lines 141-195) -/

/-- Python `str < str`: lexicographic on code points. -/
def pyStrLt : List Char → List Char → Bool
  | [], [] => false
  | [], _ :: _ => true
  | _ :: _, [] => false
  | a :: xs, b :: ys => if a = b then pyStrLt xs ys else decide (a.toNat < b.toNat)

/-- Python `<` on two tuple elements at the first differing position; a
str/int mix raises TypeError. -/
def pvalLtE : PVal → PVal → Except PyErr Bool
  | .pint a, .pint b => .ok (decide (a < b))
  | .pstr a, .pstr b => .ok (pyStrLt a.toList b.toList)
  | _, _ => .error (.typeError "not supported between instances of str and int")

/-- Python tuple `<=`: elementwise to the first difference (comparing that
pair, which can raise TypeError), lengths deciding on an equal prefix. -/
def pyTupleLe : List PVal → List PVal → Except PyErr Bool
  | [], _ => .ok true
  | _ :: _, [] => .ok false
  | a :: xs, b :: ys => if a = b then pyTupleLe xs ys else pvalLtE a b

/-- The block of `cmp` returning 0 (lines 146-156): every path returns 0. -/
def cmp_eq_section (lhs rhs : VerStruct)
    (include_data_model_version include_build_number : Bool) : Except PyErr Int :=
  let is_data_model_eq := decide (lhs.data_model_version = rhs.data_model_version)
  let is_build_num_eq := decide (lhs.build_number = rhs.build_number)
  if include_data_model_version && is_data_model_eq &&
      include_build_number && is_build_num_eq then .ok 0
  else if include_data_model_version && is_data_model_eq then .ok 0
  else if include_build_number && is_build_num_eq then .ok 0
  else .ok 0

/-- The block of `cmp` returning -1 (lines 163-173): every path returns -1. -/
def cmp_lt_section (lhs rhs : VerStruct)
    (include_data_model_version include_build_number : Bool) : Except PyErr Int :=
  let is_data_model_lt := decide (lhs.data_model_version < rhs.data_model_version)
  let is_build_num_lt := pyStrLt lhs.build_number.toList rhs.build_number.toList
  if include_data_model_version && is_data_model_lt &&
      include_build_number && is_build_num_lt then .ok (-1)
  else if include_data_model_version && is_data_model_lt then .ok (-1)
  else if include_build_number && is_build_num_lt then .ok (-1)
  else .ok (-1)

/-- The block of `cmp` returning 1 (lines 181-191): every path returns 1. -/
def cmp_gt_section (lhs rhs : VerStruct)
    (include_data_model_version include_build_number : Bool) : Except PyErr Int :=
  let is_data_model_gt := decide (rhs.data_model_version < lhs.data_model_version)
  let is_build_num_gt := pyStrLt rhs.build_number.toList lhs.build_number.toList
  if include_data_model_version && is_data_model_gt &&
      include_build_number && is_build_num_gt then .ok 1
  else if include_data_model_version && is_data_model_gt then .ok 1
  else if include_build_number && is_build_num_gt then .ok 1
  else .ok 1

/-- The `>=` branch of `cmp` (lines 178-193) and the trailing raise (line
195): `tuple(lhs) >= tuple(rhs)` is tuple `<=` with the sides swapped. -/
def cmp_gt_branch (lhs rhs : VerStruct)
    (include_data_model_version include_build_number : Bool) : Except PyErr Int :=
  match pyTupleLe rhs.addon_version lhs.addon_version with
  | .error e => .error e
  | .ok ge =>
    if ge then
      match pyListIndex BUILD_TYPES lhs.build_type with
      | .error e => .error e
      | .ok li =>
        match pyListIndex BUILD_TYPES rhs.build_type with
        | .error e => .error e
        | .ok ri =>
          if ri ≤ li then
            if rhs.build_type_version ≤ lhs.build_type_version then
              cmp_gt_section lhs rhs include_data_model_version include_build_number
            else .error (.exception "cmp function not implemented properly")
          else .error (.exception "cmp function not implemented properly")
    else .error (.exception "cmp function not implemented properly")

/-- Embeds `VerStruct.cmp` (lines 141-195): the equality block applies when
the addon versions, build types and build type versions all agree; otherwise
the `<=` branch, then the `>=` branch, then the trailing
`raise Exception("cmp function not implemented properly")`. -/
def VerStruct.cmp (lhs rhs : VerStruct)
    (include_data_model_version include_build_number : Bool) : Except PyErr Int :=
  if lhs.addon_version = rhs.addon_version ∧ lhs.build_type = rhs.build_type ∧
      lhs.build_type_version = rhs.build_type_version then
    cmp_eq_section lhs rhs include_data_model_version include_build_number
  else
    match pyTupleLe lhs.addon_version rhs.addon_version with
    | .error e => .error e
    | .ok le =>
      if le then
        match pyListIndex BUILD_TYPES lhs.build_type with
        | .error e => .error e
        | .ok li =>
          match pyListIndex BUILD_TYPES rhs.build_type with
          | .error e => .error e
          | .ok ri =>
            if li ≤ ri then
              if lhs.build_type_version ≤ rhs.build_type_version then
                cmp_lt_section lhs rhs include_data_model_version include_build_number
              else cmp_gt_branch lhs rhs include_data_model_version include_build_number
            else cmp_gt_branch lhs rhs include_data_model_version include_build_number
      else cmp_gt_branch lhs rhs include_data_model_version include_build_number

/-- A valid dev VerStruct whose addon version is below `c6_rhs`'s while its
build type sits above `c6_rhs`'s in BUILD_TYPES order. -/
def c6_lhs : VerStruct := ⟨[.pint 3, .pint 0, .pint 0], "dev", 0, 1, "none"⟩

/-- A valid legacy VerStruct. -/
def c6_rhs : VerStruct := ⟨[.pint 3, .pint 0, .pint 1], "leg", 0, 0, "none"⟩

/-- C6 fails on the code: both operands carry build types from BUILD_TYPES
(and are even `is_valid`), yet `cmp` reaches the trailing raise, because the
addon versions order one way while the BUILD_TYPES indices order the other,
so neither the `<=` nor the `>=` branch applies. -/
theorem c6_cmp_reaches_raise :
    (c6_lhs.build_type ∈ BUILD_TYPES ∧ c6_rhs.build_type ∈ BUILD_TYPES) ∧
    c6_lhs.is_valid = .ok (some true) ∧
    c6_rhs.is_valid = .ok (some true) ∧
    VerStruct.cmp c6_lhs c6_rhs false false =
      .error (.exception "cmp function not implemented properly") := by
  exact ⟨by decide, rfl, rfl, rfl⟩

end XPlane
